import Mathlib

/-!
Shallow embedding of the hand-movement assessment core from
`src/components/HandMovementAssessment.jsx`.

Numbers are modelled exactly: quantities the program computes with
rational arithmetic (sums, means, ratios, thresholds) live in `ℚ`,
and quantities that pass through `Math.sqrt` (the standard deviations
used by the consistency / rhythm-stability / amplitude-variability
metrics) live in `ℝ` via `Real.sqrt`.  `parseFloat(x.toFixed(d))`
is modelled as exact rounding to `d` decimal places, half up.
All functions are total, mirroring the fact that the JavaScript code
never throws on short or empty inputs.
-/

namespace Shaky

/-- One motion sample as collected by the devicemotion handler:
acceleration components and the precomputed Euclidean magnitude. -/
structure MotionSample where
  x : ℚ
  y : ℚ
  z : ℚ
  magnitude : ℚ
deriving DecidableEq, Repr

/-- The hands of `HandType` (`left` / `right`). -/
inductive Hand where
  | left
  | right
deriving DecidableEq, Repr

/-- Mean of a list of rationals (`reduce((s,v)=>s+v,0)/length`);
division by zero yields the junk value `0`, a case the source always
guards before reaching a mean. -/
def meanQ (l : List ℚ) : ℚ := l.sum / l.length

/-- Population variance of a list of rationals
(`reduce((s,v)=>s+(v-mean)^2,0)/length`). -/
def varQ (l : List ℚ) : ℚ := (l.map (fun v => (v - meanQ l) ^ 2)).sum / l.length

/-- Consecutive differences (`intervals.push(t[i]-t[i-1])`). -/
def intervalsOf (l : List ℚ) : List ℚ := List.zipWith (fun a b => b - a) l l.tail

/-- Model of `parseFloat(q.toFixed(d))` on a rational value: round to `d`
decimal places, half up. -/
def roundQ (d : ℕ) (q : ℚ) : ℚ := (⌊q * 10 ^ d + 1 / 2⌋ : ℚ) / 10 ^ d

/-- Model of `parseFloat(x.toFixed(d))` on a real value: round to `d`
decimal places, half up. -/
noncomputable def roundR (d : ℕ) (x : ℝ) : ℝ := (⌊x * 10 ^ d + 1 / 2⌋ : ℝ) / 10 ^ d

/-- Source `calculateConsistency` (lines 409-426): inter-tap intervals,
then `clamp(1 - stdDev/mean, 0, 1)`, with guards returning 0 for
fewer than 2 taps, no intervals, or zero mean interval. -/
noncomputable def calculateConsistency (tapTimes : List ℚ) : ℝ :=
  if tapTimes.length < 2 then 0
  else if (intervalsOf tapTimes).length = 0 then 0
  else if meanQ (intervalsOf tapTimes) = 0 then 0
  else
    max 0 (min 1
      (1 - Real.sqrt (varQ (intervalsOf tapTimes)) / (meanQ (intervalsOf tapTimes) : ℝ)))

/-- Source `calculatePeakFrequency` (lines 428-446): slide a 3-second window
anchored at every tap time, count taps inside it (inclusive on both
ends), keep the highest `count/3`, only counting windows with more
than one tap; 0 for fewer than 3 taps. -/
def calculatePeakFrequency (tapTimes : List ℚ) : ℚ :=
  if tapTimes.length < 3 then 0
  else
    tapTimes.foldl
      (fun maxFreq t =>
        if 1 < (tapTimes.filter (fun s => t ≤ s && s ≤ t + 3)).length then
          max maxFreq (((tapTimes.filter (fun s => t ≤ s && s ≤ t + 3)).length : ℚ) / 3)
        else maxFreq)
      0

/-- Value `Math.floor(n/3)`, the size of each compared third. -/
def thirdSizeOf (tapTimes : List ℚ) : ℕ := tapTimes.length / 3

/-- Slice `tapTimes.slice(0, thirdSize)`. -/
def firstThirdOf (tapTimes : List ℚ) : List ℚ := tapTimes.take (thirdSizeOf tapTimes)

/-- Slice `tapTimes.slice(-thirdSize)`. -/
def lastThirdOf (tapTimes : List ℚ) : List ℚ :=
  tapTimes.drop (tapTimes.length - thirdSizeOf tapTimes)

/-- Difference `third[third.length-1] - third[0]`, the elapsed time inside a third. -/
def durationOf (third : List ℚ) : ℚ := third.getLast?.getD 0 - third.head?.getD 0

/-- Source `calculateFatigueIndex` (lines 448-470): compare the tapping
frequency of the first `floor(n/3)` taps with that of the last
`floor(n/3)` taps and clamp the relative drop to `[0,1]`; 0 whenever
a guard fails (fewer than 6 taps, a third smaller than 2, an empty
third, a zero third-duration, or zero first-third frequency). -/
def calculateFatigueIndex (tapTimes : List ℚ) : ℚ :=
  if tapTimes.length < 6 then 0
  else if thirdSizeOf tapTimes < 2 then 0
  else if (firstThirdOf tapTimes).length = 0 ∨ (lastThirdOf tapTimes).length = 0 then 0
  else if durationOf (firstThirdOf tapTimes) = 0 ∨ durationOf (lastThirdOf tapTimes) = 0 then 0
  else if (((firstThirdOf tapTimes).length : ℚ) - 1) / durationOf (firstThirdOf tapTimes) = 0
    then 0
  else
    max 0 (min 1
      (((((firstThirdOf tapTimes).length : ℚ) - 1) / durationOf (firstThirdOf tapTimes) -
          (((lastThirdOf tapTimes).length : ℚ) - 1) / durationOf (lastThirdOf tapTimes)) /
        ((((firstThirdOf tapTimes).length : ℚ) - 1) / durationOf (firstThirdOf tapTimes))))

/-- Source `calculateRhythmStability` (lines 472-489): the same
interval-variation clamp as `calculateConsistency`, guarded at 3 taps. -/
noncomputable def calculateRhythmStability (tapTimes : List ℚ) : ℝ :=
  if tapTimes.length < 3 then 0
  else if (intervalsOf tapTimes).length = 0 then 0
  else if meanQ (intervalsOf tapTimes) = 0 then 0
  else
    max 0 (min 1
      (1 - Real.sqrt (varQ (intervalsOf tapTimes)) / (meanQ (intervalsOf tapTimes) : ℝ)))

/-- Source `calculatePhases` (lines 491-519): find the index with the highest
local five-tap frequency and return that tap time together with
`max 0 (20 - it)`. -/
def calculatePhases (tapTimes : List ℚ) : ℚ × ℚ :=
  if tapTimes.length < 5 then (0, 0)
  else
    let n := tapTimes.length
    let res :=
      (List.range' 2 (n - 4)).foldl
        (fun acc i =>
          let windowStart := i - 2
          let windowEnd := min (n - 1) (i + 2)
          let localTaps := (tapTimes.drop windowStart).take (windowEnd + 1 - windowStart)
          if 1 < localTaps.length then
            let duration := localTaps.getLast?.getD 0 - localTaps.head?.getD 0
            if 0 < duration then
              let localFreq := ((localTaps.length : ℚ) - 1) / duration
              if acc.1 < localFreq then (localFreq, i) else acc
            else acc
          else acc)
        ((0 : ℚ), (0 : ℕ))
    let accelerationPhase := tapTimes.getD res.2 0
    (accelerationPhase, max 0 (20 - accelerationPhase))

/-- The record returned by `analyzeTappingData`. -/
structure TapAnalysis where
  avgFrequency : ℚ
  consistency : ℝ
  score : ℝ
  peakFrequency : ℚ
  fatigueIndex : ℚ
  rhythmStability : ℝ
  accelerationPhase : ℚ
  decelerationPhase : ℚ

/-- Source `analyzeTappingData` (lines 291-336): all-zero record for an empty
tap list, otherwise the five metrics plus the weighted score
`clamp(0.3*freqScore + 0.25*consistencyScore + 0.25*peakScore +
0.2*fatigueScore, 0, 100)`, each published field rounded as by
`toFixed`. -/
noncomputable def analyzeTappingData (tapTimes : List ℚ) (tapCount : ℕ) : TapAnalysis :=
  if tapTimes.length = 0 then
    ⟨0, 0, 0, 0, 0, 0, 0, 0⟩
  else
    let avgFreq : ℚ := (tapCount : ℚ) / 20
    let consistency := calculateConsistency tapTimes
    let peakFreq := calculatePeakFrequency tapTimes
    let fatigueIndex := calculateFatigueIndex tapTimes
    let rhythmStability := calculateRhythmStability tapTimes
    let phases := calculatePhases tapTimes
    let freqScore : ℚ := min 100 (avgFreq * 12)
    let consistencyScore : ℝ := consistency * 100
    let peakScore : ℚ := min 100 (peakFreq * 8)
    let fatigueScore : ℚ := max 0 ((1 - fatigueIndex) * 100)
    let score : ℝ :=
      max 0 (min 100
        ((freqScore : ℝ) * 0.3 + consistencyScore * 0.25 +
          (peakScore : ℝ) * 0.25 + (fatigueScore : ℝ) * 0.2))
    { avgFrequency := roundQ 2 avgFreq
      consistency := roundR 3 consistency
      score := roundR 1 score
      peakFrequency := roundQ 2 peakFreq
      fatigueIndex := roundQ 3 fatigueIndex
      rhythmStability := roundR 3 rhythmStability
      accelerationPhase := roundQ 2 phases.1
      decelerationPhase := roundQ 2 phases.2 }

open Classical in
/-- Source `getGrade` (lines 553-559). -/
noncomputable def getGrade (score : ℝ) : String :=
  if 70 ≤ score then "Normal"
  else if 50 ≤ score then "Mild Impairment"
  else if 30 ≤ score then "Moderate Impairment"
  else if 15 ≤ score then "Significant Impairment"
  else "Severe Impairment"

/-- Source `calculateAmplitudeVariability` (lines 521-528): population
standard deviation of the magnitude sequence, 0 below 2 samples. -/
noncomputable def calculateAmplitudeVariability (magnitudes : List ℚ) : ℝ :=
  if magnitudes.length < 2 then 0 else Real.sqrt (varQ magnitudes)

/-- The zero-crossing test of `estimateFrequency`:
`(prev > 0 && cur <= 0) || (prev <= 0 && cur > 0)`. -/
def isCrossing (prev cur : ℚ) : Bool := (0 < prev && cur ≤ 0) || (prev ≤ 0 && 0 < cur)

/-- Number of zero crossings between consecutive entries of a list. -/
def countCrossings (l : List ℚ) : ℕ := (List.zipWith isCrossing l l.tail).count true

/-- Source `estimateFrequency` (lines 530-551): 0 below 20 samples, else
mean-center the data, count zero crossings, and convert
`crossings/2` full cycles over `length/100` seconds into Hz. -/
def estimateFrequency (data : List ℚ) : ℚ :=
  if data.length < 20 then 0
  else
    max 0
      (((countCrossings (data.map (fun val => val - meanQ data)) : ℚ) / 2) /
        ((data.length : ℚ) / 100))

/-- The per-axis mean absolute x-amplitude of a tremor sample set. -/
def xAmpOf (data : List MotionSample) : ℚ := meanQ (data.map (fun d => |d.x|))

/-- The per-axis mean absolute y-amplitude of a tremor sample set. -/
def yAmpOf (data : List MotionSample) : ℚ := meanQ (data.map (fun d => |d.y|))

/-- The per-axis mean absolute z-amplitude of a tremor sample set. -/
def zAmpOf (data : List MotionSample) : ℚ := meanQ (data.map (fun d => |d.z|))

/-- The magnitude sequence of a tremor sample set. -/
def magsOf (data : List MotionSample) : List ℚ := data.map (fun d => d.magnitude)

/-- The overall amplitude: mean of the per-sample magnitudes. -/
def amplitudeOf (data : List MotionSample) : ℚ := meanQ (magsOf data)

/-- The severity chain of `analyzeTremorData` (lines 380-392), applied
to the raw (unrounded) mean magnitude amplitude. -/
def severityOf (amplitude : ℚ) : String :=
  if 0.25 ≤ amplitude then "Very Severe"
  else if 0.15 ≤ amplitude then "Severe"
  else if 0.08 ≤ amplitude then "Moderate"
  else if 0.04 ≤ amplitude then "Mild"
  else if 0.02 ≤ amplitude then "Minimal"
  else "None"

/-- Position of a severity label in the None → Very Severe scale. -/
def sevRank (severity : String) : ℕ :=
  match severity with
  | "None" => 0
  | "Minimal" => 1
  | "Mild" => 2
  | "Moderate" => 3
  | "Severe" => 4
  | "Very Severe" => 5
  | _ => 6

/-- The dominant-axis chain of `analyzeTremorData` (lines 365-371):
default X, overridden by Y when `y ≥ x && y ≥ z`, else by Z when
`z ≥ x && z ≥ y`. -/
def dominantAxisOf (xAmp yAmp zAmp : ℚ) : String :=
  if xAmp ≤ yAmp ∧ zAmp ≤ yAmp then "Y (Forward-back)"
  else if xAmp ≤ zAmp ∧ yAmp ≤ zAmp then "Z (Up-down)"
  else "X (Side-to-side)"

/-- The record returned by `analyzeTremorData`. -/
structure TremorAnalysis where
  frequency : ℚ
  amplitude : ℚ
  severity : String
  xAxisAmplitude : ℚ
  yAxisAmplitude : ℚ
  zAxisAmplitude : ℚ
  dominantAxis : String
  tremorsPerSecond : ℚ
  maxAmplitude : ℚ
  amplitudeVariability : ℝ

/-- Source `analyzeTremorData` (lines 338-406): a zeroed record below 10
samples, otherwise per-axis amplitudes, dominant axis, mean/max
magnitude, variability, zero-crossing frequency and the severity
bucket, each published number rounded as by `toFixed`. -/
noncomputable def analyzeTremorData (data : List MotionSample) : TremorAnalysis :=
  if data.length < 10 then
    ⟨0, 0, "None", 0, 0, 0, "None", 0, 0, 0⟩
  else
    let xAmp := xAmpOf data
    let yAmp := yAmpOf data
    let zAmp := zAmpOf data
    let magnitudes := magsOf data
    let amplitude := meanQ magnitudes
    let maxAmplitude := magnitudes.max?.getD 0
    let frequency := estimateFrequency magnitudes
    { frequency := roundQ 2 frequency
      amplitude := roundQ 4 amplitude
      severity := severityOf amplitude
      xAxisAmplitude := roundQ 4 xAmp
      yAxisAmplitude := roundQ 4 yAmp
      zAxisAmplitude := roundQ 4 zAmp
      dominantAxis := dominantAxisOf xAmp yAmp zAmp
      tremorsPerSecond := roundQ 2 frequency
      maxAmplitude := roundQ 4 maxAmplitude
      amplitudeVariability := roundR 4 (calculateAmplitudeVariability magnitudes) }

/-- A published tapping result (`finishTappingTest`, lines 217-230). -/
structure TappingResult where
  hand : Hand
  tapCount : ℕ
  averageFrequency : ℚ
  consistency : ℝ
  score : ℝ
  tapTimes : List ℚ
  peakFrequency : ℚ
  fatigueIndex : ℚ
  rhythmStability : ℝ
  accelerationPhase : ℚ
  decelerationPhase : ℚ
  grade : String

/-- A published tremor result (`finishTremorTest`, lines 269-282). -/
structure TremorResult where
  hand : Hand
  frequency : ℚ
  amplitude : ℚ
  severity : String
  xAxisAmplitude : ℚ
  yAxisAmplitude : ℚ
  zAxisAmplitude : ℚ
  dominantAxis : String
  tremorsPerSecond : ℚ
  maxAmplitude : ℚ
  amplitudeVariability : ℝ
  hasTremor : Bool

/-- The session record: one optional result per hand and per test. -/
structure Session where
  leftTapping : Option TappingResult
  rightTapping : Option TappingResult
  leftTremor : Option TremorResult
  rightTremor : Option TremorResult

/-- The result record built by `finishTappingTest` from the analysis,
including `grade = getGrade(analysis.score)`. -/
noncomputable def mkTappingResult (hand : Hand) (tapTimes : List ℚ) (tapCount : ℕ) :
    TappingResult :=
  let analysis := analyzeTappingData tapTimes tapCount
  { hand := hand
    tapCount := tapCount
    averageFrequency := analysis.avgFrequency
    consistency := analysis.consistency
    score := analysis.score
    tapTimes := tapTimes
    peakFrequency := analysis.peakFrequency
    fatigueIndex := analysis.fatigueIndex
    rhythmStability := analysis.rhythmStability
    accelerationPhase := analysis.accelerationPhase
    decelerationPhase := analysis.decelerationPhase
    grade := getGrade analysis.score }

/-- The result record built by `finishTremorTest` from the analysis,
including `hasTremor = analysis.amplitude > 0.02` on the published
(4-decimal rounded) amplitude. -/
noncomputable def mkTremorResult (hand : Hand) (data : List MotionSample) : TremorResult :=
  let analysis := analyzeTremorData data
  { hand := hand
    frequency := analysis.frequency
    amplitude := analysis.amplitude
    severity := analysis.severity
    xAxisAmplitude := analysis.xAxisAmplitude
    yAxisAmplitude := analysis.yAxisAmplitude
    zAxisAmplitude := analysis.zAxisAmplitude
    dominantAxis := analysis.dominantAxis
    tremorsPerSecond := analysis.tremorsPerSecond
    maxAmplitude := analysis.maxAmplitude
    amplitudeVariability := analysis.amplitudeVariability
    hasTremor := decide ((0.02 : ℚ) < analysis.amplitude) }

/-- Source `finishTappingTest` (lines 208-236): publish the analysis into the
`[hand]Tapping` field of the session, spreading the old session. -/
noncomputable def finishTappingTest (hand : Hand) (tapTimes : List ℚ) (tapCount : ℕ)
    (s : Session) : Session :=
  let result := mkTappingResult hand tapTimes tapCount
  match hand with
  | .left => { s with leftTapping := some result }
  | .right => { s with rightTapping := some result }

/-- Source `finishTremorTest` (lines 258-288): publish the analysis into the
`[hand]Tremor` field of the session, spreading the old session. -/
noncomputable def finishTremorTest (hand : Hand) (data : List MotionSample)
    (s : Session) : Session :=
  let result := mkTremorResult hand data
  match hand with
  | .left => { s with leftTremor := some result }
  | .right => { s with rightTremor := some result }

open Classical in
/-- Source `getOverallStatus` (lines 883-892): "Incomplete" unless all four
results are present, else a three-way bucket on the mean tapping score
and the OR of the tremor flags. -/
noncomputable def getOverallStatus (s : Session) : String :=
  match s.leftTapping, s.rightTapping, s.leftTremor, s.rightTremor with
  | some leftTapping, some rightTapping, some leftTremor, some rightTremor =>
    let avgScore := (leftTapping.score + rightTapping.score) / 2
    let hasTremor := leftTremor.hasTremor || rightTremor.hasTremor
    if 70 ≤ avgScore ∧ hasTremor = false then "Normal"
    else if 50 ≤ avgScore ∧ hasTremor = false then "Mild Issues"
    else "Needs Attention"
  | _, _, _, _ => "Incomplete"

/-! ## Concrete inputs used by the verification -/

/-- A tremor recording of 200 samples that are exactly zero on all axes. -/
def zeroSamples : List MotionSample := List.replicate 200 ⟨0, 0, 0, 0⟩

/-- A tremor recording whose x axis strictly dominates. -/
def xDominantSamples : List MotionSample := List.replicate 10 ⟨1, 0, 0, 1⟩

/-- A tremor recording with mean magnitude amplitude exactly 0.02. -/
def borderlineSamples : List MotionSample := List.replicate 10 ⟨0.02, 0, 0, 0.02⟩

/-- A 20-sample magnitude sequence alternating between 0 and 1. -/
def alternatingMags : List ℚ := (List.range 20).map (fun k => if k % 2 = 0 then 0 else 1)

/-- A plausible published tapping result carrying a given score. -/
noncomputable def demoTapping (hand : Hand) (score : ℝ) : TappingResult :=
  { hand := hand, tapCount := 80, averageFrequency := 4, consistency := 0.9, score := score
    tapTimes := [], peakFrequency := 5, fatigueIndex := 0.1, rhythmStability := 0.9
    accelerationPhase := 3, decelerationPhase := 17, grade := "Normal" }

/-- A plausible published tremor result with no detected tremor. -/
noncomputable def demoTremor (hand : Hand) : TremorResult :=
  { hand := hand, frequency := 0, amplitude := 0.01, severity := "None"
    xAxisAmplitude := 0.01, yAxisAmplitude := 0.01, zAxisAmplitude := 0.01
    dominantAxis := "Y (Forward-back)", tremorsPerSecond := 0, maxAmplitude := 0.02
    amplitudeVariability := 0, hasTremor := false }

/-- A complete session with tapping scores 80 and 60 and no tremor. -/
noncomputable def demoSession : Session :=
  { leftTapping := some (demoTapping .left 80), rightTapping := some (demoTapping .right 60)
    leftTremor := some (demoTremor .left), rightTremor := some (demoTremor .right) }

/-- Five taps with positive, strictly increasing inter-tap intervals. -/
def shortSlowingTaps : List ℚ := [0, 1, 2.1, 3.3, 4.6]

/-- Six taps with positive, strictly increasing inter-tap intervals. -/
def slowingTaps : List ℚ := [0, 1, 2.1, 3.3, 4.6, 6]

/-- One hundred tap times spaced exactly 0.2 s apart, starting at 0. -/
def baseTaps : List ℚ := (List.range 100).map (fun k => (k : ℚ) * 0.2)

/-- One hundred tap times spaced exactly 0.2 s apart, starting at offset `t0`. -/
def tapList (t0 : ℚ) : List ℚ := (List.range 100).map (fun k => t0 + (k : ℚ) * 0.2)

/-! ## Helper lemmas -/

section Verification

attribute [local semireducible] Rat.mul Rat.inv Rat.add Rat.sub Rat.ofScientific

set_option maxRecDepth 10000

/-- Unfolded form of `analyzeTremorData` when the 10-sample guard passes. -/
lemma analyzeTremorData_eq (data : List MotionSample) (h10 : 10 ≤ data.length) :
    analyzeTremorData data =
      { frequency := roundQ 2 (estimateFrequency (magsOf data))
        amplitude := roundQ 4 (amplitudeOf data)
        severity := severityOf (amplitudeOf data)
        xAxisAmplitude := roundQ 4 (xAmpOf data)
        yAxisAmplitude := roundQ 4 (yAmpOf data)
        zAxisAmplitude := roundQ 4 (zAmpOf data)
        dominantAxis := dominantAxisOf (xAmpOf data) (yAmpOf data) (zAmpOf data)
        tremorsPerSecond := roundQ 2 (estimateFrequency (magsOf data))
        maxAmplitude := roundQ 4 ((magsOf data).max?.getD 0)
        amplitudeVariability := roundR 4 (calculateAmplitudeVariability (magsOf data)) } := by
  unfold analyzeTremorData
  rw [if_neg (Nat.not_lt.mpr h10)]
  rfl

/-- Composition `sevRank ∘ severityOf` written as one nested conditional. -/
lemma sevRank_severityOf (a : ℚ) :
    sevRank (severityOf a) =
      if 0.25 ≤ a then 5 else if 0.15 ≤ a then 4 else if 0.08 ≤ a then 3
      else if 0.04 ≤ a then 2 else if 0.02 ≤ a then 1 else 0 := by
  unfold severityOf sevRank
  split_ifs <;> rfl

/-- Claim C3 (confirmed): tremor severity is a pure, monotonically
non-decreasing step function of the mean magnitude amplitude with
exactly the documented buckets (≥0.25 Very Severe, ≥0.15 Severe,
≥0.08 Moderate, ≥0.04 Mild, ≥0.02 Minimal, else None), taking the
documented values at the boundary amplitudes 0.019, 0.02, 0.04, 0.08,
0.15 and 0.25, and it is exactly what `analyzeTremorData` publishes
for any sample set passing the 10-sample guard. -/
theorem severity_step_function :
    (∀ a b : ℚ, a ≤ b → sevRank (severityOf a) ≤ sevRank (severityOf b)) ∧
    (∀ a : ℚ,
      (a < 0.02 → severityOf a = "None") ∧
      (0.02 ≤ a → a < 0.04 → severityOf a = "Minimal") ∧
      (0.04 ≤ a → a < 0.08 → severityOf a = "Mild") ∧
      (0.08 ≤ a → a < 0.15 → severityOf a = "Moderate") ∧
      (0.15 ≤ a → a < 0.25 → severityOf a = "Severe") ∧
      (0.25 ≤ a → severityOf a = "Very Severe")) ∧
    (severityOf 0.019 = "None" ∧ severityOf 0.02 = "Minimal" ∧ severityOf 0.04 = "Mild" ∧
      severityOf 0.08 = "Moderate" ∧ severityOf 0.15 = "Severe" ∧
      severityOf 0.25 = "Very Severe") ∧
    (∀ data : List MotionSample, 10 ≤ data.length →
      (analyzeTremorData data).severity = severityOf (amplitudeOf data)) := by
  refine ⟨?_, ?_, by decide, ?_⟩
  · intro a b hab
    rw [sevRank_severityOf, sevRank_severityOf]
    split_ifs
    all_goals try norm_num
    all_goals exfalso
    all_goals linarith
  · intro a
    refine ⟨fun h1 => ?_, fun h1 h2 => ?_, fun h1 h2 => ?_, fun h1 h2 => ?_,
      fun h1 h2 => ?_, fun h1 => ?_⟩
    all_goals unfold severityOf
    all_goals split_ifs
    all_goals try rfl
    all_goals exfalso
    all_goals linarith
  · intro data h10
    rw [analyzeTremorData_eq data h10]

/-- Witness for C3: the monotonicity clause applied at 0.01 ≤ 0.1. -/
theorem severity_step_function_witness :
    sevRank (severityOf 0.01) ≤ sevRank (severityOf 0.1) :=
  severity_step_function.1 0.01 0.1 (by norm_num)

/-- Claim C2 (corrected): with at least the minimum sample count the
dominant axis is an axis achieving the largest per-axis mean absolute
amplitude, but the comparison chain breaks ties toward Y first, then
Z, then X (X wins only when strictly largest); in particular an
all-tie yields Y, not X. -/
theorem dominantAxis_largest_tiebreak (data : List MotionSample) (h10 : 10 ≤ data.length) :
    ((analyzeTremorData data).dominantAxis = "Y (Forward-back)" ↔
      xAmpOf data ≤ yAmpOf data ∧ zAmpOf data ≤ yAmpOf data) ∧
    ((analyzeTremorData data).dominantAxis = "Z (Up-down)" ↔
      ¬(xAmpOf data ≤ yAmpOf data ∧ zAmpOf data ≤ yAmpOf data) ∧
        xAmpOf data ≤ zAmpOf data ∧ yAmpOf data ≤ zAmpOf data) ∧
    ((analyzeTremorData data).dominantAxis = "X (Side-to-side)" ↔
      yAmpOf data < xAmpOf data ∧ zAmpOf data < xAmpOf data) ∧
    (xAmpOf data = yAmpOf data → yAmpOf data = zAmpOf data →
      (analyzeTremorData data).dominantAxis = "Y (Forward-back)") := by
  have hda : (analyzeTremorData data).dominantAxis =
      dominantAxisOf (xAmpOf data) (yAmpOf data) (zAmpOf data) := by
    rw [analyzeTremorData_eq data h10]
  rw [hda]
  unfold dominantAxisOf
  split_ifs with h1 h2
  · exact ⟨iff_of_true rfl h1,
      iff_of_false (by decide) (fun h => h.1 h1),
      iff_of_false (by decide) (fun h => absurd h1.1 (not_le.mpr h.1)),
      fun _ _ => rfl⟩
  · exact ⟨iff_of_false (by decide) h1,
      iff_of_true rfl ⟨h1, h2⟩,
      iff_of_false (by decide) (fun h => absurd h2.1 (not_le.mpr h.2)),
      fun hxy hyz => absurd ⟨le_of_eq hxy, le_of_eq hyz.symm⟩ h1⟩
  · refine ⟨iff_of_false (by decide) h1,
      iff_of_false (by decide) (fun h => h2 h.2),
      iff_of_true rfl ?_,
      fun hxy hyz => absurd ⟨le_of_eq hxy, le_of_eq hyz.symm⟩ h1⟩
    rcases not_and_or.mp h1 with hxy | hzy <;> rcases not_and_or.mp h2 with hxz | hyz <;>
      rw [not_le] at * <;> constructor <;> linarith

/-- Counterexample for C2: on 200 all-zero samples (a three-way tie of
the per-axis means) the code reports the Y axis as dominant, not the X
axis the claim's tie-break order predicts. -/
theorem dominantAxis_largest_tiebreak_cex :
    (analyzeTremorData zeroSamples).dominantAxis = "Y (Forward-back)" ∧
      (analyzeTremorData zeroSamples).dominantAxis ≠ "X (Side-to-side)" := by
  constructor <;> decide

/-- Witness for C2: the amended characterization applied to a concrete
recording with a strictly dominant x axis. -/
theorem dominantAxis_largest_tiebreak_witness :
    (analyzeTremorData xDominantSamples).dominantAxis = "X (Side-to-side)" :=
  ((dominantAxis_largest_tiebreak xDominantSamples (by decide)).2.2.1).mpr (by decide)

/-- Claim C10 (confirmed): severity other than "None" can coexist with
`hasTremor = false`: at mean magnitude amplitude exactly 0.02 the
severity bucket is "Minimal" (threshold `amplitude ≥ 0.02`) while
`hasTremor` requires `amplitude > 0.02` and stays false. -/
theorem severity_without_hasTremor (hand : Hand) (data : List MotionSample)
    (h10 : 10 ≤ data.length) (hamp : amplitudeOf data = 0.02) :
    (mkTremorResult hand data).severity = "Minimal" ∧
      (mkTremorResult hand data).severity ≠ "None" ∧
      (mkTremorResult hand data).hasTremor = false := by
  have h1 : (mkTremorResult hand data).severity = severityOf (amplitudeOf data) := by
    unfold mkTremorResult
    rw [analyzeTremorData_eq data h10]
  have h2 : (mkTremorResult hand data).hasTremor =
      decide ((0.02 : ℚ) < roundQ 4 (amplitudeOf data)) := by
    unfold mkTremorResult
    rw [analyzeTremorData_eq data h10]
  rw [h1, h2, hamp]
  refine ⟨by decide, by decide, by decide⟩

/-- Witness for C10: the borderline behaviour at a concrete recording
whose magnitudes are all exactly 0.02. -/
theorem severity_without_hasTremor_witness :
    (mkTremorResult .left borderlineSamples).severity = "Minimal" ∧
      (mkTremorResult .left borderlineSamples).severity ≠ "None" ∧
      (mkTremorResult .left borderlineSamples).hasTremor = false :=
  severity_without_hasTremor .left borderlineSamples (by decide) (by decide)

/-- Claim C4 (confirmed): `estimateFrequency` (a pure function, hence
deterministic) is non-negative, returns exactly 0 below 20 samples,
and on 20 or more samples returns `(crossings/2)/duration` where
`crossings` counts the sign changes of the mean-centered sequence and
`duration = length/100` seconds; the final `max 0` of the code is
redundant there. -/
theorem estimateFrequency_spec (data : List ℚ) :
    0 ≤ estimateFrequency data ∧
    (data.length < 20 → estimateFrequency data = 0) ∧
    (20 ≤ data.length →
      estimateFrequency data =
        ((countCrossings (data.map (fun val => val - meanQ data)) : ℚ) / 2) /
          ((data.length : ℚ) / 100)) := by
  refine ⟨?_, fun h => ?_, fun h => ?_⟩
  · unfold estimateFrequency
    split
    · exact le_refl 0
    · exact le_max_left 0 _
  · unfold estimateFrequency
    rw [if_pos h]
  · unfold estimateFrequency
    rw [if_neg (Nat.not_lt.mpr h)]
    refine max_eq_right (div_nonneg (div_nonneg (Nat.cast_nonneg _) (by norm_num)) ?_)
    exact div_nonneg (Nat.cast_nonneg _) (by norm_num)

/-- Witness for C4: the zero-crossing formula applied to a concrete
20-sample alternating sequence. -/
theorem estimateFrequency_spec_witness :
    20 ≤ alternatingMags.length ∧
      estimateFrequency alternatingMags =
        ((countCrossings (alternatingMags.map (fun val => val - meanQ alternatingMags)) : ℚ) /
            2) / ((alternatingMags.length : ℚ) / 100) :=
  ⟨by decide, (estimateFrequency_spec alternatingMags).2.2 (by decide)⟩

/-- Claim C7 (confirmed): a tapping phase with zero taps produces the
all-zero analysis (the embedding is a total function, so no exception
is possible), score 0 and grade "Severe Impairment". -/
theorem zeroTaps_analysis :
    (analyzeTappingData [] 0).avgFrequency = 0 ∧
    (analyzeTappingData [] 0).consistency = 0 ∧
    (analyzeTappingData [] 0).peakFrequency = 0 ∧
    (analyzeTappingData [] 0).fatigueIndex = 0 ∧
    (analyzeTappingData [] 0).rhythmStability = 0 ∧
    (analyzeTappingData [] 0).accelerationPhase = 0 ∧
    (analyzeTappingData [] 0).decelerationPhase = 0 ∧
    (mkTappingResult .left [] 0).score = 0 ∧
    (mkTappingResult .left [] 0).grade = "Severe Impairment" := by
  refine ⟨rfl, rfl, rfl, rfl, rfl, rfl, rfl, rfl, ?_⟩
  show getGrade (analyzeTappingData [] 0).score = _
  have h0 : (analyzeTappingData [] 0).score = 0 := rfl
  rw [h0]
  unfold getGrade
  rw [if_neg (by norm_num), if_neg (by norm_num), if_neg (by norm_num),
    if_neg (by norm_num)]

/-- Claim C9 (confirmed): finishing a tapping test updates only the
tapping field of the tested hand, and finishing a tremor test updates
only the tremor field of the tested hand; the other three session
fields are returned unchanged. -/
theorem finish_updates_only_own_field (tapTimes : List ℚ) (tapCount : ℕ)
    (data : List MotionSample) (s : Session) :
    ((finishTappingTest .left tapTimes tapCount s).leftTapping =
        some (mkTappingResult .left tapTimes tapCount) ∧
      (finishTappingTest .left tapTimes tapCount s).rightTapping = s.rightTapping ∧
      (finishTappingTest .left tapTimes tapCount s).leftTremor = s.leftTremor ∧
      (finishTappingTest .left tapTimes tapCount s).rightTremor = s.rightTremor) ∧
    ((finishTappingTest .right tapTimes tapCount s).rightTapping =
        some (mkTappingResult .right tapTimes tapCount) ∧
      (finishTappingTest .right tapTimes tapCount s).leftTapping = s.leftTapping ∧
      (finishTappingTest .right tapTimes tapCount s).leftTremor = s.leftTremor ∧
      (finishTappingTest .right tapTimes tapCount s).rightTremor = s.rightTremor) ∧
    ((finishTremorTest .left data s).leftTremor = some (mkTremorResult .left data) ∧
      (finishTremorTest .left data s).leftTapping = s.leftTapping ∧
      (finishTremorTest .left data s).rightTapping = s.rightTapping ∧
      (finishTremorTest .left data s).rightTremor = s.rightTremor) ∧
    ((finishTremorTest .right data s).rightTremor = some (mkTremorResult .right data) ∧
      (finishTremorTest .right data s).leftTapping = s.leftTapping ∧
      (finishTremorTest .right data s).rightTapping = s.rightTapping ∧
      (finishTremorTest .right data s).leftTremor = s.leftTremor) :=
  ⟨⟨rfl, rfl, rfl, rfl⟩, ⟨rfl, rfl, rfl, rfl⟩, ⟨rfl, rfl, rfl, rfl⟩, ⟨rfl, rfl, rfl, rfl⟩⟩

/-- Claim C8 (confirmed): the overall status is "Incomplete" whenever
one of the four results is missing; with all four present it is
"Normal" when the mean tapping score is at least 70 and neither hand
tremors, "Mild Issues" when the mean is at least 50 (but below 70)
and neither hand tremors, and "Needs Attention" in every other case. -/
theorem overallStatus_buckets (s : Session) :
    ((s.leftTapping = none ∨ s.rightTapping = none ∨ s.leftTremor = none ∨
        s.rightTremor = none) → getOverallStatus s = "Incomplete") ∧
    (∀ lt rt ltr rtr, s.leftTapping = some lt → s.rightTapping = some rt →
      s.leftTremor = some ltr → s.rightTremor = some rtr →
      (70 ≤ (lt.score + rt.score) / 2 → ltr.hasTremor = false → rtr.hasTremor = false →
        getOverallStatus s = "Normal") ∧
      (50 ≤ (lt.score + rt.score) / 2 → (lt.score + rt.score) / 2 < 70 →
        ltr.hasTremor = false → rtr.hasTremor = false →
        getOverallStatus s = "Mild Issues") ∧
      ((lt.score + rt.score) / 2 < 50 ∨ ltr.hasTremor = true ∨ rtr.hasTremor = true →
        getOverallStatus s = "Needs Attention")) := by
  constructor
  · intro h
    unfold getOverallStatus
    rcases h with h | h | h | h <;> rw [h] <;>
      rcases s.leftTapping with _ | lt <;> rcases s.rightTapping with _ | rt <;>
      rcases s.leftTremor with _ | ltr <;> rcases s.rightTremor with _ | rtr <;> rfl
  · intro lt rt ltr rtr h1 h2 h3 h4
    have hs : getOverallStatus s =
        if 70 ≤ (lt.score + rt.score) / 2 ∧ (ltr.hasTremor || rtr.hasTremor) = false
          then "Normal"
        else if 50 ≤ (lt.score + rt.score) / 2 ∧ (ltr.hasTremor || rtr.hasTremor) = false
          then "Mild Issues"
        else "Needs Attention" := by
      unfold getOverallStatus
      rw [h1, h2, h3, h4]
    rw [hs]
    refine ⟨fun ha htl htr => ?_, fun ha hb htl htr => ?_, fun h => ?_⟩
    · rw [if_pos ⟨ha, by rw [htl, htr]; rfl⟩]
    · rw [if_neg (fun hc => absurd hc.1 (not_le.mpr hb)),
        if_pos ⟨ha, by rw [htl, htr]; rfl⟩]
    · rcases h with h | h | h
      · rw [if_neg (fun hc => absurd hc.1 (not_le.mpr (by linarith))),
          if_neg (fun hc => absurd hc.1 (not_le.mpr h))]
      · rw [if_neg (fun hc => by rw [h] at hc; simp at hc),
          if_neg (fun hc => by rw [h] at hc; simp at hc)]
      · rw [if_neg (fun hc => by rw [h] at hc; simp at hc),
          if_neg (fun hc => by rw [h] at hc; simp at hc)]

/-- Witness for C8: the bucket rules applied to a complete session with
mean tapping score 70 and no tremor. -/
theorem overallStatus_buckets_witness : getOverallStatus demoSession = "Normal" :=
  ((overallStatus_buckets demoSession).2 (demoTapping .left 80) (demoTapping .right 60)
      (demoTremor .left) (demoTremor .right) rfl rfl rfl rfl).1
    (by norm_num [demoTapping]) rfl rfl

lemma length_intervalsOf (l : List ℚ) : (intervalsOf l).length = l.length - 1 := by
  unfold intervalsOf
  rw [List.length_zipWith, List.length_tail]
  omega

lemma eq_zero_of_mem_of_sum_eq_zero {l : List ℚ} (hpos : ∀ x ∈ l, 0 ≤ x)
    (hsum : l.sum = 0) : ∀ x ∈ l, x = 0 := by
  induction l with
  | nil => simp
  | cons a l ih =>
    simp only [List.sum_cons] at hsum
    have ha : 0 ≤ a := hpos a (by simp)
    have hl : 0 ≤ l.sum := List.sum_nonneg (fun x hx => hpos x (by simp [hx]))
    intro x hx
    rcases List.mem_cons.mp hx with rfl | hx
    · linarith
    · exact ih (fun y hy => hpos y (by simp [hy])) (by linarith) x hx

lemma varQ_nonneg (l : List ℚ) : 0 ≤ varQ l := by
  unfold varQ
  refine div_nonneg (List.sum_nonneg ?_) (Nat.cast_nonneg _)
  intro x hx
  rcases List.mem_map.mp hx with ⟨v, _, rfl⟩
  positivity

lemma all_eq_mean_of_varQ_eq_zero {l : List ℚ} (hlen : l.length ≠ 0)
    (hvar : varQ l = 0) : ∀ v ∈ l, v = meanQ l := by
  unfold varQ at hvar
  rcases div_eq_zero_iff.mp hvar with hsum | hcast
  · intro v hv
    have hz := eq_zero_of_mem_of_sum_eq_zero
      (l := l.map (fun v => (v - meanQ l) ^ 2))
      (fun x hx => by rcases List.mem_map.mp hx with ⟨w, _, rfl⟩; positivity) hsum
      ((v - meanQ l) ^ 2) (List.mem_map_of_mem _ hv)
    have := pow_eq_zero_iff (n := 2) (by norm_num) |>.mp hz
    linarith [sub_eq_zero.mp this]
  · exact absurd (Nat.cast_eq_zero.mp hcast) hlen

/-- Claim C5 (confirmed): over chronological tap sequences (the code
only ever appends non-decreasing elapsed times, so inter-tap intervals
are non-negative) consistency lies in [0,1], is 0 below 2 taps, equals
`clamp(1 - stdDev/mean, 0, 1)` whenever that expression's divisor is
non-zero, and equals 1 only when every inter-tap interval equals the
(non-zero) mean interval. -/
theorem consistency_clamp (l : List ℚ) (hchron : ∀ v ∈ intervalsOf l, 0 ≤ v) :
    (0 ≤ calculateConsistency l ∧ calculateConsistency l ≤ 1) ∧
    (l.length < 2 → calculateConsistency l = 0) ∧
    (2 ≤ l.length → meanQ (intervalsOf l) ≠ 0 →
      calculateConsistency l =
        max 0 (min 1
          (1 - Real.sqrt (varQ (intervalsOf l)) / (meanQ (intervalsOf l) : ℝ)))) ∧
    (calculateConsistency l = 1 →
      (∀ v ∈ intervalsOf l, v = meanQ (intervalsOf l)) ∧ meanQ (intervalsOf l) ≠ 0) := by
  refine ⟨?_, fun h => ?_, fun h2 hm => ?_, fun h1 => ?_⟩
  · unfold calculateConsistency
    split_ifs <;>
      first
        | exact ⟨le_refl 0, zero_le_one⟩
        | exact ⟨le_max_left _ _, max_le zero_le_one (min_le_left _ _)⟩
  · unfold calculateConsistency
    rw [if_pos h]
  · unfold calculateConsistency
    rw [if_neg (by omega), if_neg (by rw [length_intervalsOf]; omega), if_neg hm]
  · unfold calculateConsistency at h1
    by_cases hl : l.length < 2
    · rw [if_pos hl] at h1; exact absurd h1 (by norm_num)
    rw [if_neg hl] at h1
    by_cases hi : (intervalsOf l).length = 0
    · rw [if_pos hi] at h1; exact absurd h1 (by norm_num)
    rw [if_neg hi] at h1
    by_cases hm : meanQ (intervalsOf l) = 0
    · rw [if_pos hm] at h1; exact absurd h1 (by norm_num)
    rw [if_neg hm] at h1
    refine ⟨?_, hm⟩
    have hmean : 0 < meanQ (intervalsOf l) := by
      rcases lt_or_eq_of_le (div_nonneg (List.sum_nonneg hchron)
        (Nat.cast_nonneg (intervalsOf l).length) : 0 ≤ meanQ (intervalsOf l)) with h | h
      · exact h
      · exact absurd h.symm hm
    have hx : (1 : ℝ) ≤
        1 - Real.sqrt (varQ (intervalsOf l)) / (meanQ (intervalsOf l) : ℝ) := by
      rcases max_eq_iff.mp h1 with ⟨h0, _⟩ | ⟨hmin, _⟩
      · norm_num at h0
      · exact min_eq_left_iff.mp hmin
    have hsq : Real.sqrt (varQ (intervalsOf l)) = 0 := by
      by_contra hne
      have hpos : 0 < Real.sqrt (varQ (intervalsOf l)) :=
        lt_of_le_of_ne (Real.sqrt_nonneg _) (Ne.symm hne)
      have : (0 : ℝ) < Real.sqrt (varQ (intervalsOf l)) / (meanQ (intervalsOf l) : ℝ) :=
        div_pos hpos (by exact_mod_cast hmean)
      linarith
    have hvar : varQ (intervalsOf l) = 0 := by
      have hle : ((varQ (intervalsOf l) : ℝ)) ≤ 0 := Real.sqrt_eq_zero'.mp hsq
      have hge := varQ_nonneg (intervalsOf l)
      exact le_antisymm (by exact_mod_cast hle) hge
    exact all_eq_mean_of_varQ_eq_zero hi hvar

/-- Witness for C5: the bounds clause applied to the concrete
chronological tap sequence 0, 0.2, 0.4. -/
theorem consistency_clamp_witness :
    0 ≤ calculateConsistency [0, 0.2, 0.4] ∧ calculateConsistency [0, 0.2, 0.4] ≤ 1 :=
  (consistency_clamp [0, 0.2, 0.4] (by decide)).1

lemma intervalsOf_getElem (l : List ℚ) (i : ℕ) (h : i < (intervalsOf l).length) :
    (intervalsOf l)[i] = l.getD (i + 1) 0 - l.getD i 0 := by
  have h' := h
  rw [length_intervalsOf] at h'
  simp only [intervalsOf, List.getElem_zipWith, List.getElem_tail]
  rw [List.getD_eq_getElem l 0 (by omega), List.getD_eq_getElem l 0 (by omega)]

lemma strictMono_of_gaps (t : ℕ → ℚ) (n : ℕ) (hpos : ∀ i, i + 1 < n → t i < t (i + 1)) :
    ∀ i j, i < j → j < n → t i < t j := by
  intro i j hij hj
  induction j with
  | zero => omega
  | succ j ih =>
    rcases Nat.lt_or_ge i j with h | h
    · exact lt_trans (ih h (by omega)) (hpos j hj)
    · have hij' : i = j := by omega
      subst hij'
      exact hpos i hj

lemma span_lt_of_gaps (t : ℕ → ℚ) (n : ℕ)
    (hgap : ∀ i j, i < j → j + 1 < n → t (i + 1) - t i < t (j + 1) - t j) :
    ∀ d a b, 0 < d → a < b → b + d < n → t (a + d) - t a < t (b + d) - t b := by
  intro d
  induction d with
  | zero => intro a b h0; exact absurd h0 (lt_irrefl 0)
  | succ d ih =>
    intro a b _ hab hbd
    rcases Nat.eq_zero_or_pos d with rfl | hd
    · simpa using hgap a b hab (by omega)
    · have h1 := ih (a + 1) (b + 1) hd (by omega) (by omega)
      have h2 := hgap a b hab (by omega)
      have e1 : a + (d + 1) = a + 1 + d := by omega
      have e2 : b + (d + 1) = b + 1 + d := by omega
      rw [e1, e2]
      linarith

lemma getD_take (l : List ℚ) (m i : ℕ) (him : i < m) (hil : i < l.length) :
    (l.take m).getD i 0 = l.getD i 0 := by
  rw [List.getD_eq_getElem _ 0 (by simp [lt_min_iff]; omega),
    List.getD_eq_getElem _ 0 hil]
  exact List.getElem_take ..

lemma getD_drop (l : List ℚ) (k i : ℕ) (h : k + i < l.length) :
    (l.drop k).getD i 0 = l.getD (k + i) 0 := by
  rw [List.getD_eq_getElem _ 0 (by simp; omega), List.getD_eq_getElem _ 0 h]
  exact List.getElem_drop ..

lemma durationOf_getD (L : List ℚ) (h : L ≠ []) :
    durationOf L = L.getD (L.length - 1) 0 - L.getD 0 0 := by
  have hlen : 0 < L.length := List.length_pos.mpr h
  unfold durationOf
  rw [List.getLast?_eq_getLast L h, List.head?_eq_head h]
  simp only [Option.getD_some]
  rw [List.getLast_eq_getElem, List.head_eq_getElem,
    List.getD_eq_getElem L 0 (by omega), List.getD_eq_getElem L 0 (by omega)]

/-- Claim C6 (corrected): the fatigue index always lies in [0,1]; and a
session whose instantaneous tapping frequency strictly decreases
(positive, strictly increasing inter-tap intervals) forces a strictly
positive fatigue index PROVIDED the session has at least 6 taps — with
5 or fewer taps the code returns exactly 0 regardless of slowdown. -/
theorem fatigue_bounds_and_slowdown (l : List ℚ) :
    (0 ≤ calculateFatigueIndex l ∧ calculateFatigueIndex l ≤ 1) ∧
    (6 ≤ l.length → (∀ v ∈ intervalsOf l, 0 < v) →
      (intervalsOf l).Pairwise (· < ·) → 0 < calculateFatigueIndex l) := by
  constructor
  · unfold calculateFatigueIndex
    split_ifs <;>
      first
        | exact ⟨le_refl 0, zero_le_one⟩
        | exact ⟨le_max_left _ _, max_le zero_le_one (min_le_left _ _)⟩
  · intro hn hpos hmono
    set n := l.length with hn_def
    set m := thirdSizeOf l with hm_def
    have h3m : m * 3 ≤ n := Nat.div_mul_le_self n 3
    have hm2 : 2 ≤ m := by simp only [hm_def, thirdSizeOf]; omega
    have hmn : m < n := by omega
    set t := fun i => l.getD i 0 with ht_def
    have hgap_pos : ∀ i, i + 1 < n → t i < t (i + 1) := by
      intro i hi
      have hb : i < (intervalsOf l).length := by rw [length_intervalsOf]; omega
      have := hpos ((intervalsOf l)[i]) (List.getElem_mem hb)
      rw [intervalsOf_getElem l i hb] at this
      simp only [ht_def]
      linarith
    have hgap_mono : ∀ i j, i < j → j + 1 < n → t (i + 1) - t i < t (j + 1) - t j := by
      intro i j hij hj
      have hbi : i < (intervalsOf l).length := by rw [length_intervalsOf]; omega
      have hbj : j < (intervalsOf l).length := by rw [length_intervalsOf]; omega
      have := List.pairwise_iff_getElem.mp hmono i j hbi hbj hij
      rw [intervalsOf_getElem l i hbi, intervalsOf_getElem l j hbj] at this
      simpa only [ht_def] using this
    have hlenA : (firstThirdOf l).length = m := by
      simp only [firstThirdOf, List.length_take]
      omega
    have hlenB : (lastThirdOf l).length = m := by
      simp only [lastThirdOf, List.length_drop]
      omega
    have hA_ne : firstThirdOf l ≠ [] := by
      intro he
      rw [he] at hlenA
      simp at hlenA
      omega
    have hB_ne : lastThirdOf l ≠ [] := by
      intro he
      rw [he] at hlenB
      simp at hlenB
      omega
    have hd1 : durationOf (firstThirdOf l) = t (m - 1) - t 0 := by
      rw [durationOf_getD _ hA_ne, hlenA]
      simp only [firstThirdOf]
      rw [getD_take l _ _ (by omega) (by omega), getD_take l _ _ (by omega) (by omega)]
    have hd2 : durationOf (lastThirdOf l) = t (n - 1) - t (n - m) := by
      rw [durationOf_getD _ hB_ne, hlenB]
      simp only [lastThirdOf]
      rw [getD_drop l _ _ (by omega), getD_drop l _ _ (by omega)]
      have e1 : n - m + (m - 1) = n - 1 := by omega
      have e2 : n - m + 0 = n - m := by omega
      rw [e1, e2]
    have hdur1_pos : 0 < t (m - 1) - t 0 :=
      sub_pos.mpr (strictMono_of_gaps t n hgap_pos 0 (m - 1) (by omega) (by omega))
    have hspan : t (m - 1) - t 0 < t (n - 1) - t (n - m) := by
      have := span_lt_of_gaps t n hgap_mono (m - 1) 0 (n - m) (by omega) (by omega)
        (by omega)
      have e1 : 0 + (m - 1) = m - 1 := by omega
      have e2 : n - m + (m - 1) = n - 1 := by omega
      rwa [e1, e2] at this
    have hdur2_pos : 0 < t (n - 1) - t (n - m) := lt_trans hdur1_pos hspan
    have hf1_pos : 0 < ((m : ℚ) - 1) / (t (m - 1) - t 0) := by
      apply div_pos _ hdur1_pos
      have : (2 : ℚ) ≤ (m : ℚ) := by exact_mod_cast hm2
      linarith
    have hf2_lt : ((m : ℚ) - 1) / (t (n - 1) - t (n - m)) <
        ((m : ℚ) - 1) / (t (m - 1) - t 0) := by
      apply div_lt_div_of_pos_left _ hdur1_pos hspan
      have : (2 : ℚ) ≤ (m : ℚ) := by exact_mod_cast hm2
      linarith
    unfold calculateFatigueIndex
    rw [if_neg (by omega : ¬l.length < 6)]
    rw [if_neg (by omega : ¬thirdSizeOf l < 2)]
    rw [if_neg (by rw [hlenA, hlenB]; omega :
      ¬((firstThirdOf l).length = 0 ∨ (lastThirdOf l).length = 0))]
    rw [hd1, hd2, hlenA, hlenB]
    rw [if_neg (by push_neg; exact ⟨ne_of_gt hdur1_pos, ne_of_gt hdur2_pos⟩ :
      ¬(t (m - 1) - t 0 = 0 ∨ t (n - 1) - t (n - m) = 0))]
    rw [if_neg (ne_of_gt hf1_pos)]
    have hv : 0 < (((m : ℚ) - 1) / (t (m - 1) - t 0) -
        ((m : ℚ) - 1) / (t (n - 1) - t (n - m))) /
        (((m : ℚ) - 1) / (t (m - 1) - t 0)) :=
      div_pos (sub_pos.mpr hf2_lt) hf1_pos
    exact lt_of_lt_of_le (lt_min one_pos hv) (le_max_right 0 _)

/-- Counterexample for C6: a 5-tap session whose instantaneous
frequency strictly decreases still gets fatigue index exactly 0,
because the code requires at least 6 taps. -/
theorem fatigue_bounds_and_slowdown_cex :
    (∀ v ∈ intervalsOf shortSlowingTaps, 0 < v) ∧
      (intervalsOf shortSlowingTaps).Pairwise (· < ·) ∧
      calculateFatigueIndex shortSlowingTaps = 0 := by
  refine ⟨by decide, by decide, by decide⟩

/-- Witness for C6: the amended slowdown clause applied to a concrete
6-tap decelerating session. -/
theorem fatigue_bounds_and_slowdown_witness : 0 < calculateFatigueIndex slowingTaps :=
  (fatigue_bounds_and_slowdown slowingTaps).2 (by decide) (by decide) (by decide)

/-! ## The 20-second, 100-tap, perfectly even scenario -/

lemma tapList_eq (t0 : ℚ) : tapList t0 = baseTaps.map (fun x => t0 + x) := by
  unfold tapList baseTaps
  rw [List.map_map]
  rfl

lemma intervalsOf_shift (t0 : ℚ) (l : List ℚ) :
    intervalsOf (l.map (fun x => t0 + x)) = intervalsOf l := by
  unfold intervalsOf
  rw [← List.map_tail, List.zipWith_map]
  simp [add_sub_add_left_eq_sub]

lemma calculateConsistency_shift (t0 : ℚ) (l : List ℚ) :
    calculateConsistency (l.map (fun x => t0 + x)) = calculateConsistency l := by
  unfold calculateConsistency
  rw [List.length_map, intervalsOf_shift]

lemma windowCount_shift (t0 t : ℚ) (l : List ℚ) :
    ((l.map (fun x => t0 + x)).filter (fun s => t0 + t ≤ s && s ≤ t0 + t + 3)).length =
      (l.filter (fun s => t ≤ s && s ≤ t + 3)).length := by
  rw [List.filter_map, List.length_map]
  congr 1
  apply List.filter_congr
  intro x _
  simp only [Function.comp]
  congr 1
  · exact decide_eq_decide.mpr ⟨fun h => by linarith, fun h => by linarith⟩
  · exact decide_eq_decide.mpr ⟨fun h => by linarith, fun h => by linarith⟩

lemma calculatePeakFrequency_shift (t0 : ℚ) (l : List ℚ) :
    calculatePeakFrequency (l.map (fun x => t0 + x)) = calculatePeakFrequency l := by
  unfold calculatePeakFrequency
  rw [List.length_map]
  split
  · rfl
  · rw [List.foldl_map]
    congr 1
    funext maxFreq t
    rw [windowCount_shift t0 t l]

lemma thirdSizeOf_shift (t0 : ℚ) (l : List ℚ) :
    thirdSizeOf (l.map (fun x => t0 + x)) = thirdSizeOf l := by
  simp [thirdSizeOf]

lemma firstThirdOf_shift (t0 : ℚ) (l : List ℚ) :
    firstThirdOf (l.map (fun x => t0 + x)) = (firstThirdOf l).map (fun x => t0 + x) := by
  unfold firstThirdOf
  rw [thirdSizeOf_shift, List.map_take]

lemma lastThirdOf_shift (t0 : ℚ) (l : List ℚ) :
    lastThirdOf (l.map (fun x => t0 + x)) = (lastThirdOf l).map (fun x => t0 + x) := by
  unfold lastThirdOf
  rw [thirdSizeOf_shift, List.length_map, List.map_drop]

lemma durationOf_shift (t0 : ℚ) (L : List ℚ) :
    durationOf (L.map (fun x => t0 + x)) = durationOf L := by
  cases L with
  | nil => simp [durationOf]
  | cons a L' =>
    have h : (a :: L') ≠ [] := by simp
    have hm : ((a :: L').map (fun x => t0 + x)) ≠ [] := by simp
    rw [durationOf_getD _ hm, durationOf_getD _ h, List.length_map]
    have hlen : 0 < (a :: L').length := by simp
    rw [List.getD_eq_getElem _ 0 (by rw [List.length_map]; omega),
      List.getD_eq_getElem _ 0 (by rw [List.length_map]; omega),
      List.getD_eq_getElem (a :: L') 0 (by omega),
      List.getD_eq_getElem (a :: L') 0 (by omega)]
    simp only [List.getElem_map]
    ring

lemma calculateFatigueIndex_shift (t0 : ℚ) (l : List ℚ) :
    calculateFatigueIndex (l.map (fun x => t0 + x)) = calculateFatigueIndex l := by
  unfold calculateFatigueIndex
  simp only [List.length_map, thirdSizeOf_shift, firstThirdOf_shift, lastThirdOf_shift,
    durationOf_shift]

lemma consistency_baseTaps : calculateConsistency baseTaps = 1 := by
  unfold calculateConsistency
  rw [if_neg (by decide), if_neg (by decide), if_neg (by decide)]
  rw [show varQ (intervalsOf baseTaps) = 0 by decide,
    show meanQ (intervalsOf baseTaps) = 0.2 by decide]
  norm_num [Real.sqrt_zero]

lemma consistency_tapList (t0 : ℚ) : calculateConsistency (tapList t0) = 1 := by
  rw [tapList_eq, calculateConsistency_shift]
  exact consistency_baseTaps

lemma peak_tapList (t0 : ℚ) : calculatePeakFrequency (tapList t0) = 16 / 3 := by
  rw [tapList_eq, calculatePeakFrequency_shift]
  decide

lemma fatigue_tapList (t0 : ℚ) : calculateFatigueIndex (tapList t0) = 0 := by
  rw [tapList_eq, calculateFatigueIndex_shift]
  decide

lemma tapList_length (t0 : ℚ) : (tapList t0).length = 100 := by
  rw [tapList_eq, List.length_map]
  decide

lemma analyzeTappingData_avgFrequency (tapTimes : List ℚ) (tapCount : ℕ)
    (h : tapTimes.length ≠ 0) :
    (analyzeTappingData tapTimes tapCount).avgFrequency = roundQ 2 ((tapCount : ℚ) / 20) := by
  unfold analyzeTappingData
  rw [if_neg h]

lemma analyzeTappingData_consistency (tapTimes : List ℚ) (tapCount : ℕ)
    (h : tapTimes.length ≠ 0) :
    (analyzeTappingData tapTimes tapCount).consistency =
      roundR 3 (calculateConsistency tapTimes) := by
  unfold analyzeTappingData
  rw [if_neg h]

lemma analyzeTappingData_peakFrequency (tapTimes : List ℚ) (tapCount : ℕ)
    (h : tapTimes.length ≠ 0) :
    (analyzeTappingData tapTimes tapCount).peakFrequency =
      roundQ 2 (calculatePeakFrequency tapTimes) := by
  unfold analyzeTappingData
  rw [if_neg h]

lemma analyzeTappingData_fatigueIndex (tapTimes : List ℚ) (tapCount : ℕ)
    (h : tapTimes.length ≠ 0) :
    (analyzeTappingData tapTimes tapCount).fatigueIndex =
      roundQ 3 (calculateFatigueIndex tapTimes) := by
  unfold analyzeTappingData
  rw [if_neg h]

lemma analyzeTappingData_score (tapTimes : List ℚ) (tapCount : ℕ)
    (h : tapTimes.length ≠ 0) :
    (analyzeTappingData tapTimes tapCount).score =
      roundR 1 (max 0 (min 100
        (((min 100 ((tapCount : ℚ) / 20 * 12) : ℚ) : ℝ) * 0.3 +
          calculateConsistency tapTimes * 100 * 0.25 +
          ((min 100 (calculatePeakFrequency tapTimes * 8) : ℚ) : ℝ) * 0.25 +
          ((max 0 ((1 - calculateFatigueIndex tapTimes) * 100) : ℚ) : ℝ) * 0.2))) := by
  unfold analyzeTappingData
  rw [if_neg h]

lemma score_tapList (t0 : ℚ) : (analyzeTappingData (tapList t0) 100).score = 73.7 := by
  rw [analyzeTappingData_score _ _ (by rw [tapList_length]; omega)]
  rw [consistency_tapList, peak_tapList, fatigue_tapList]
  rw [show min 100 (((100 : ℕ) : ℚ) / 20 * 12) = 60 by norm_num [min_def],
    show min 100 ((16 : ℚ) / 3 * 8) = 128 / 3 by norm_num [min_def],
    show max 0 ((1 - (0 : ℚ)) * 100) = 100 by norm_num [max_def]]
  push_cast
  rw [show (60 : ℝ) * 0.3 + 1 * 100 * 0.25 + 128 / 3 * 0.25 + 100 * 0.2 = 221 / 3 by
    norm_num]
  rw [show min (100 : ℝ) (221 / 3) = 221 / 3 by norm_num [min_def],
    show max (0 : ℝ) (221 / 3) = 221 / 3 by norm_num [max_def]]
  unfold roundR
  rw [show ⌊(221 : ℝ) / 3 * 10 ^ 1 + 1 / 2⌋ = 737 from Int.floor_eq_iff.mpr (by norm_num)]
  norm_num

/-- Claim C1 (corrected): for a 20-second test of exactly 100 taps
spaced exactly 0.2 s apart (any start offset) the analyzer returns
averageFrequency 5.0, consistency 1.0 and fatigueIndex 0 and grade
"Normal" as claimed, but the inclusive 3-second window holds 16 taps,
so peakFrequency is 16/3 ≈ 5.33 (published as 5.33), peakScore is
128/3 ≈ 42.67 rather than 40, and the published score is 73.7 (exactly
0.30·60 + 0.25·100 + 0.25·(128/3) + 0.20·100 = 221/3 ≈ 73.67, rounded
to one decimal), not 73. -/
theorem evenTapping_metrics (t0 : ℚ) :
    (analyzeTappingData (tapList t0) 100).avgFrequency = 5 ∧
    (analyzeTappingData (tapList t0) 100).consistency = 1 ∧
    (analyzeTappingData (tapList t0) 100).peakFrequency = 5.33 ∧
    (analyzeTappingData (tapList t0) 100).fatigueIndex = 0 ∧
    (analyzeTappingData (tapList t0) 100).score = 73.7 ∧
    (mkTappingResult .left (tapList t0) 100).grade = "Normal" := by
  have hne : (tapList t0).length ≠ 0 := by rw [tapList_length]; omega
  refine ⟨?_, ?_, ?_, ?_, score_tapList t0, ?_⟩
  · rw [analyzeTappingData_avgFrequency _ _ hne]
    decide
  · rw [analyzeTappingData_consistency _ _ hne, consistency_tapList]
    unfold roundR
    rw [show ⌊(1 : ℝ) * 10 ^ 3 + 1 / 2⌋ = 1000 from Int.floor_eq_iff.mpr (by norm_num)]
    norm_num
  · rw [analyzeTappingData_peakFrequency _ _ hne, peak_tapList]
    decide
  · rw [analyzeTappingData_fatigueIndex _ _ hne, fatigue_tapList]
    decide
  · show getGrade (analyzeTappingData (tapList t0) 100).score = _
    rw [score_tapList]
    unfold getGrade
    rw [if_pos (by norm_num)]

/-- Counterexample for C1: at start offset 0 the published score of the
perfectly even 100-tap scenario is 73.7, not the claimed 73. -/
theorem evenTapping_metrics_cex : (analyzeTappingData (tapList 0) 100).score ≠ 73 := by
  rw [score_tapList 0]
  norm_num

end Verification

end Shaky
